import Mathlib

/-
  Verification development for the Tikz-Python repository.

  Shallow embedding of:
  - `TikzPicture` (src/src/tikzpy/tikz_environments/tikz_picture.py):
    the preamble/postamble ordered mapping, `code()`, `__repr__`,
    `add_styles`, and the page-selection and crop-window computation of
    `save_png`.
  - `Rectangle` / `Point` (the class itself is not under src/; it is
    modelled from the spec, cross-checked against
    src/tests/drawing_objects/test_rectangle.py).
-/

namespace TikzPy

/-- Modelled from the spec: the helper `brackets` of tikzpy.utils.helpers is
not under src/.  Per the spec, options are embedded verbatim inside square
brackets, and the bracket is omitted entirely when the options string is
empty. -/
def brackets (s : String) : String :=
  if s = "" then "" else "[" ++ s ++ "]"

/-- Python `dict` assignment `m[k] = v`: if the key is present the value is
overwritten in place (first-insertion position kept), otherwise the pair is
appended at the end. -/
def dictInsert (m : List (String × String)) (k v : String) :
    List (String × String) :=
  if m.any (fun p => p.1 == k) then
    m.map (fun p => if p.1 == k then (k, v) else p)
  else
    m ++ [(k, v)]

/-- The state of a `TikzPicture`: its environment options, the ordered
sequence of drawing objects (each embedded by its rendered code line), and
the `_preamble` / `_postamble` insertion-ordered mappings. -/
structure TikzPicture where
  options : String
  drawing_objects : List String
  preamble : List (String × String)
  postamble : List (String × String)

/-- Constructor `TikzPicture.__init__`: the `center` flag installs a
`\begin{center}` / `\end{center}` pair under the key `center` in the
preamble/postamble, otherwise empty fragments under the same key. -/
def TikzPicture.init (center : Bool) (options : String) : TikzPicture :=
  if center then
    { options := options
      drawing_objects := []
      preamble := [("center", "\\begin{center}\n")]
      postamble := [("center", "\\end{center}\n")] }
  else
    { options := options
      drawing_objects := []
      preamble := [("center", "")]
      postamble := [("center", "")] }

/-- Appending drawing objects to the picture (the `draw` method of
`TikzEnvironment`). -/
def TikzPicture.draw (tp : TikzPicture) (objs : List String) : TikzPicture :=
  { tp with drawing_objects := tp.drawing_objects ++ objs }

/-- Method `TikzPicture.code`: accumulates the preamble values in order, the
`\begin{tikzpicture}` wrapper with options, each drawing object's code
indented on its own line, the `\end{tikzpicture}` wrapper, then the
postamble values in reversed order, exactly mirroring the Python loops. -/
def TikzPicture.code (tp : TikzPicture) : String :=
  let code1 := (tp.preamble.map Prod.snd).foldl (fun acc stmt => acc ++ stmt) ""
  let code2 := code1 ++ "\\begin{tikzpicture}" ++ brackets tp.options ++ "\n"
  let code3 := tp.drawing_objects.foldl
    (fun acc obj => acc ++ "    " ++ obj ++ "\n") code2
  let code4 := code3 ++ "\\end{tikzpicture}\n"
  ((tp.postamble.map Prod.snd).reverse).foldl (fun acc stmt => acc ++ stmt) code4

/-- Method `TikzPicture.__repr__`: only the tikzpicture block itself, with no
preamble or postamble fragments. -/
def TikzPicture.repr (tp : TikzPicture) : String :=
  let readable1 := "\\begin{tikzpicture}" ++ brackets tp.options ++ "\n"
  let readable2 := tp.drawing_objects.foldl
    (fun acc obj => acc ++ "    " ++ obj ++ "\n") readable1
  readable2 ++ "\\end{tikzpicture}\n"

/-- A Tikz style as consumed by `add_styles`: its name and its rendered
`\tikzset` code (the `TikzStyle` class itself is not under src/; only the
two fields read by `add_styles` are embedded). -/
structure TikzStyle where
  style_name : String
  code : String

/-- Method `TikzPicture.add_styles`: for each style, assigns
`_preamble["tikz_style:" + name] = style.code` with Python dict
semantics. -/
def TikzPicture.add_styles (tp : TikzPicture) (styles : List TikzStyle) :
    TikzPicture :=
  { tp with
    preamble := styles.foldl
      (fun m style =>
        dictInsert m ("tikz_style:" ++ style.style_name) style.code)
      tp.preamble }

theorem join_cons (a : String) (l : List String) :
    String.join (a :: l) = a ++ String.join l := by
  cases a with
  | mk d => simp [String.join_eq]; rfl

theorem foldl_append_shift (t : List String) (u v : String) :
    t.foldl (fun acc stmt => acc ++ stmt) (u ++ v)
      = u ++ t.foldl (fun acc stmt => acc ++ stmt) v := by
  induction t generalizing v with
  | nil => rfl
  | cons b t ih => simp only [List.foldl_cons, String.append_assoc, ih]

theorem foldl_append_eq (l : List String) (s : String) :
    l.foldl (fun acc stmt => acc ++ stmt) s = s ++ String.join l := by
  have h : l.foldl (fun acc stmt => acc ++ stmt) (s ++ "")
      = s ++ String.join l := by
    rw [foldl_append_shift]; rfl
  rwa [String.append_empty] at h

theorem foldl_indent_eq (l : List String) (s : String) :
    l.foldl (fun acc obj => acc ++ "    " ++ obj ++ "\n") s
      = s ++ String.join (l.map (fun obj => "    " ++ obj ++ "\n")) := by
  induction l generalizing s with
  | nil => rw [List.foldl_nil, List.map_nil]; exact (String.append_empty s).symm
  | cons a l ih =>
      rw [List.foldl_cons, List.map_cons, join_cons, ih]
      simp only [String.append_assoc]

theorem dictInsert_fresh (m : List (String × String)) (k v : String)
    (h : k ∉ m.map Prod.fst) : dictInsert m k v = m ++ [(k, v)] := by
  cases ha : m.any (fun p => p.1 == k) with
  | false => unfold dictInsert; rw [ha]; simp
  | true =>
      exfalso
      rcases List.any_eq_true.mp ha with ⟨p, hp, hpk⟩
      have hm : p.1 ∈ m.map Prod.fst := List.mem_map_of_mem Prod.fst hp
      rw [eq_of_beq hpk] at hm
      exact h hm

theorem dictInsert_present (m : List (String × String)) (k v : String)
    (h : k ∈ m.map Prod.fst) :
    dictInsert m k v = m.map (fun p => if p.1 == k then (k, v) else p) := by
  cases ha : m.any (fun p => p.1 == k) with
  | true => unfold dictInsert; rw [ha]; simp
  | false =>
      exfalso
      rcases List.mem_map.mp h with ⟨p, hp, hpk⟩
      have := List.any_eq_false.mp ha p hp
      rw [hpk] at this
      simp at this

theorem replace_keys (m : List (String × String)) (k v : String) :
    (m.map (fun p => if p.1 == k then (k, v) else p)).map Prod.fst
      = m.map Prod.fst := by
  induction m with
  | nil => rfl
  | cons p m ih =>
      simp only [List.map_cons, ih]
      by_cases hp : (p.1 == k) = true
      · rw [if_pos hp]
        simp [eq_of_beq hp]
      · rw [if_neg hp]

theorem replace_absent (m : List (String × String)) (k v : String)
    (h : k ∉ m.map Prod.fst) :
    m.map (fun p => if p.1 == k then (k, v) else p) = m := by
  induction m with
  | nil => rfl
  | cons p m ih =>
      simp only [List.map_cons, List.mem_cons, not_or] at h
      simp only [List.map_cons]
      have hpk : (p.1 == k) = false :=
        beq_eq_false_iff_ne.mpr (fun he => h.1 he.symm)
      rw [hpk]
      simp only [Bool.false_eq_true, if_false, ih h.2]

theorem filter_absent (m : List (String × String)) (k : String)
    (h : k ∉ m.map Prod.fst) :
    m.filter (fun p => p.1 == k) = [] := by
  induction m with
  | nil => rfl
  | cons p m ih =>
      simp only [List.map_cons, List.mem_cons, not_or] at h
      have hpk : (p.1 == k) = false :=
        beq_eq_false_iff_ne.mpr (fun he => h.1 he.symm)
      rw [List.filter_cons, hpk]
      simp only [Bool.false_eq_true, if_false]
      exact ih h.2

/-- C5: registering two styles with the same name in a TikzPicture leaves
exactly one preamble entry keyed by that name, holding the later
definition, while the entry keeps its first-insertion position in the
emission order (the key sequence is unchanged by the second
registration). -/
theorem tikz_add_styles_overwrite (tp : TikzPicture) (s1 s2 : TikzStyle)
    (hname : s1.style_name = s2.style_name)
    (hfresh : ("tikz_style:" ++ s1.style_name) ∉ tp.preamble.map Prod.fst) :
    (tp.add_styles [s1]).preamble.map Prod.fst
        = tp.preamble.map Prod.fst ++ ["tikz_style:" ++ s1.style_name] ∧
    ((tp.add_styles [s1]).add_styles [s2]).preamble.map Prod.fst
        = tp.preamble.map Prod.fst ++ ["tikz_style:" ++ s1.style_name] ∧
    ((tp.add_styles [s1]).add_styles [s2]).preamble.filter
        (fun p => p.1 == "tikz_style:" ++ s1.style_name)
        = [("tikz_style:" ++ s1.style_name, s2.code)] := by
  have h1 : (tp.add_styles [s1]).preamble
      = tp.preamble ++ [("tikz_style:" ++ s1.style_name, s1.code)] := by
    unfold TikzPicture.add_styles
    simp only [List.foldl_cons, List.foldl_nil]
    exact dictInsert_fresh tp.preamble _ s1.code hfresh
  have hkeys1 : (tp.add_styles [s1]).preamble.map Prod.fst
      = tp.preamble.map Prod.fst ++ ["tikz_style:" ++ s1.style_name] := by
    rw [h1, List.map_append]; rfl
  have hin : ("tikz_style:" ++ s2.style_name)
      ∈ (tp.add_styles [s1]).preamble.map Prod.fst := by
    rw [hkeys1, ← hname]
    simp
  have h2 : ((tp.add_styles [s1]).add_styles [s2]).preamble
      = (tp.add_styles [s1]).preamble.map
          (fun p => if p.1 == "tikz_style:" ++ s2.style_name
            then ("tikz_style:" ++ s2.style_name, s2.code) else p) := by
    unfold TikzPicture.add_styles
    simp only [List.foldl_cons, List.foldl_nil]
    exact dictInsert_present _ _ s2.code hin
  refine ⟨hkeys1, ?_, ?_⟩
  · rw [h2, replace_keys, hkeys1]
  · rw [h2, h1, List.map_append, ← hname]
    rw [replace_absent tp.preamble _ _ hfresh]
    simp only [List.map_cons, List.map_nil, beq_self_eq_true, if_true]
    rw [List.filter_append]
    rw [filter_absent tp.preamble _ hfresh]
    simp

/-- Witness for C5 at a concrete picture and two concrete styles sharing
the name `mystyle`. -/
theorem tikz_add_styles_overwrite_witness :
    ((TikzPicture.init false "").add_styles
        [TikzStyle.mk "mystyle" "defA"]).preamble.map Prod.fst
        = (TikzPicture.init false "").preamble.map Prod.fst
          ++ ["tikz_style:" ++ "mystyle"] ∧
    (((TikzPicture.init false "").add_styles
        [TikzStyle.mk "mystyle" "defA"]).add_styles
        [TikzStyle.mk "mystyle" "defB"]).preamble.map Prod.fst
        = (TikzPicture.init false "").preamble.map Prod.fst
          ++ ["tikz_style:" ++ "mystyle"] ∧
    (((TikzPicture.init false "").add_styles
        [TikzStyle.mk "mystyle" "defA"]).add_styles
        [TikzStyle.mk "mystyle" "defB"]).preamble.filter
        (fun p => p.1 == "tikz_style:" ++ "mystyle")
        = [("tikz_style:" ++ "mystyle", "defB")] :=
  tikz_add_styles_overwrite (TikzPicture.init false "")
    (TikzStyle.mk "mystyle" "defA") (TikzStyle.mk "mystyle" "defB")
    rfl (by decide)

/-- C2: for every TikzPicture, `code()` emits the preamble fragments in
their insertion order before the `\begin{tikzpicture}` wrapper, and emits
the postamble fragments after the `\end{tikzpicture}` wrapper in reverse
insertion order (so nested begin/end pairs close correctly). -/
theorem tikz_code_emission_order (tp : TikzPicture) :
    tp.code
      = String.join (tp.preamble.map Prod.snd)
        ++ "\\begin{tikzpicture}" ++ brackets tp.options ++ "\n"
        ++ String.join (tp.drawing_objects.map (fun obj => "    " ++ obj ++ "\n"))
        ++ "\\end{tikzpicture}\n"
        ++ String.join ((tp.postamble.map Prod.snd).reverse) := by
  unfold TikzPicture.code
  rw [foldl_append_eq, foldl_indent_eq, foldl_append_eq]
  simp only [String.append_assoc, String.empty_append]

/-- C10: for every TikzPicture constructed with `center = False` (and no
styles or 3D directives registered), `__repr__` returns the same string as
`code()`, for any sequence of drawables and any options. -/
theorem tikz_repr_eq_code_uncentered (options : String) (objs : List String) :
    ((TikzPicture.init false options).draw objs).repr
      = ((TikzPicture.init false options).draw objs).code := by
  unfold TikzPicture.init TikzPicture.draw TikzPicture.repr TikzPicture.code
  simp only [Bool.false_eq_true, if_false, List.nil_append, List.map_cons,
    List.map_nil, List.reverse_cons, List.reverse_nil, List.foldl_cons,
    List.foldl_nil, String.append_empty, String.empty_append]

/-- The page-selection step of `save_png` (lines 168-182): `total` is the
number of page images returned by the rasterizer, the index defaults to 0
and moves to the last page (with the printed warning, embedded as the
returned flag) when more than one page is present; the page at that index
is then fetched. -/
def savePngPageSelection {α : Type} (pages : List α) : Option (α × Bool) :=
  let total := pages.length
  let warn : Bool := total > 1
  let ind := if total > 1 then total - 1 else 0
  match pages.get? ind with
  | some img => some (img, warn)
  | none => none

/-- Modelled from the spec: `rowHasInk` is the per-row test of the
boundary-detection helpers of tikzpy.utils.helpers, which are not under
src/; a row counts as content when some pixel is below a fixed brightness
threshold. -/
def rowHasInk (row : List ℕ) : Bool := row.any (fun p => decide (p < 250))

/-- Modelled from the spec: `find_image_start_boundary` of
tikzpy.utils.helpers is not under src/.  It scans rows from the first
index forward and returns the index of the first row containing
non-background content; the sentinel on an all-background image is an open
question in the spec and is taken to be 0. -/
def find_image_start_boundary (grid : List (List ℕ)) : ℕ :=
  match grid.findIdx? (fun row => rowHasInk row) with
  | some i => i
  | none => 0

/-- Modelled from the spec: `find_image_end_boundary` of
tikzpy.utils.helpers is not under src/.  It scans rows from the last index
backward and returns the index of the last row containing non-background
content; sentinel 0 on an all-background image. -/
def find_image_end_boundary (grid : List (List ℕ)) : ℕ :=
  match grid.reverse.findIdx? (fun row => rowHasInk row) with
  | some j => grid.length - 1 - j
  | none => 0

/-- The crop-window computation of `save_png` (lines 185-201): boundary
detection on the grid and its transpose, then the zoom/padding arithmetic
exactly as in the source, including the source's assignments
`horizontal_len = len(img_data.T)` and `vertical_len = len(img_data.T)`.
Python `int()` truncation is `Int.floor` here, as every operand is
nonnegative.  Returns the clamped `(y_0, y_1, x_0, x_1)`. -/
def save_png_crop (img_data : List (List ℕ)) : ℤ × ℤ × ℤ × ℤ :=
  let y0 : ℚ := find_image_start_boundary img_data
  let y1 : ℚ := find_image_end_boundary img_data
  let t := img_data.transpose
  let x0 : ℚ := find_image_start_boundary t
  let x1 : ℚ := find_image_end_boundary t
  let horizontal_len : ℚ := t.length
  let vertical_len : ℚ := t.length
  let x0c := ⌊min (20 / 100 * horizontal_len) x0⌋
  let x1c := ⌊max (80 / 100 * horizontal_len) x1⌋
  let y0c := ⌊max 0 (y0 - 2 / 100 * vertical_len)⌋
  let y1c := ⌊min vertical_len (y1 + 2 / 100 * vertical_len)⌋
  (y0c, y1c, x0c, x1c)

/-- C6: when the rasterizer returns more than one page, `save_png` selects
the last page, sets the warning, and still succeeds; when exactly one page
is returned, that page is used with no warning. -/
theorem tikz_save_png_page_selection {α : Type} (pages : List α) :
    (1 < pages.length →
      ∃ img, pages.get? (pages.length - 1) = some img ∧
        savePngPageSelection pages = some (img, true)) ∧
    (pages.length = 1 →
      ∃ img, pages = [img] ∧ savePngPageSelection pages = some (img, false)) := by
  constructor
  · intro h
    have hlt : pages.length - 1 < pages.length := by omega
    refine ⟨pages.get ⟨pages.length - 1, hlt⟩, List.get?_eq_get hlt, ?_⟩
    unfold savePngPageSelection
    simp only [gt_iff_lt, if_pos h, decide_eq_true h, List.get?_eq_get hlt]
  · intro h
    match pages, h with
    | [a], _ => exact ⟨a, rfl, rfl⟩

/-- Witness for C6: a three-page sequence uses the last page with the
warning, a one-page sequence uses its only page without it. -/
theorem tikz_save_png_page_selection_witness :
    (∃ img, ([10, 20, 30] : List ℕ).get? (([10, 20, 30] : List ℕ).length - 1)
        = some img ∧ savePngPageSelection [10, 20, 30] = some (img, true)) ∧
    (∃ img, ([7] : List ℕ) = [img] ∧
        savePngPageSelection [7] = some (img, false)) :=
  ⟨(tikz_save_png_page_selection [10, 20, 30]).1 (by decide),
   (tikz_save_png_page_selection [7]).2 rfl⟩

/-- C1 (code bug): on the 1 x 100 all-ink grayscale grid, the computed
bottom crop bound `y_1` is 2, which exceeds the image height 1.  The
source assigns `vertical_len = len(img_data.T)` (the image width) instead
of `len(img_data)` (the height), so the vertical padding is 2% of the
width and the clamp `min(vertical_len, ...)` does not bound `y_1` by the
height. -/
theorem tikz_save_png_crop_bug :
    (save_png_crop [List.replicate 100 0]).2.1 = 2 ∧
    ¬ ((save_png_crop [List.replicate 100 0]).2.1
        ≤ (([List.replicate 100 0] : List (List ℕ)).length : ℤ)) := by
  have hstart : find_image_start_boundary [List.replicate 100 0] = 0 := by
    decide
  have hend : find_image_end_boundary [List.replicate 100 0] = 0 := by
    decide
  have htlen : ([List.replicate 100 (0 : ℕ)]).transpose.length = 100 := by
    decide
  have hy1 : (save_png_crop [List.replicate 100 0]).2.1 = 2 := by
    simp only [save_png_crop, hstart, hend, htlen]
    have harg : min ((100 : ℕ) : ℚ) (((0 : ℕ) : ℚ) + 2 / 100 * ((100 : ℕ) : ℚ))
        = 2 := by
      push_cast
      norm_num
    rw [harg]
    norm_num
  refine ⟨hy1, ?_⟩
  rw [hy1]
  simp only [List.length_cons, List.length_nil]
  norm_num

/-- Modelled from the spec: the `Point` value object of the shape model
(the Point class is not under src/): a pair of numeric coordinates with
exact componentwise equality. -/
structure Point where
  x : ℚ
  y : ℚ
deriving DecidableEq

/-- Modelled from the spec: the `Rectangle` drawing object is not under
src/ (only src/tests/drawing_objects/test_rectangle.py is); it stores the
raw corners as given (no reordering) and the free-form options string,
defaulting to empty. -/
structure Rectangle where
  left_corner : Point
  right_corner : Point
  options : String := ""
deriving DecidableEq

/-- Modelled from the spec: `width = |right.x - left.x|`. -/
def Rectangle.width (r : Rectangle) : ℚ :=
  |r.right_corner.x - r.left_corner.x|

/-- Modelled from the spec: `height = |right.y - left.y|`. -/
def Rectangle.height (r : Rectangle) : ℚ :=
  |r.right_corner.y - r.left_corner.y|

def Rectangle.minX (r : Rectangle) : ℚ := min r.left_corner.x r.right_corner.x

def Rectangle.maxX (r : Rectangle) : ℚ := max r.left_corner.x r.right_corner.x

def Rectangle.minY (r : Rectangle) : ℚ := min r.left_corner.y r.right_corner.y

def Rectangle.maxY (r : Rectangle) : ℚ := max r.left_corner.y r.right_corner.y

/-- Modelled from the spec: the center and the four named edge midpoints
are recomputed from the current corners using min/max of x and y
independently. -/
def Rectangle.center (r : Rectangle) : Point :=
  ⟨(r.minX + r.maxX) / 2, (r.minY + r.maxY) / 2⟩

def Rectangle.north (r : Rectangle) : Point :=
  ⟨(r.minX + r.maxX) / 2, r.maxY⟩

def Rectangle.south (r : Rectangle) : Point :=
  ⟨(r.minX + r.maxX) / 2, r.minY⟩

def Rectangle.east (r : Rectangle) : Point :=
  ⟨r.maxX, (r.minY + r.maxY) / 2⟩

def Rectangle.west (r : Rectangle) : Point :=
  ⟨r.minX, (r.minY + r.maxY) / 2⟩

/-- Setting `left_corner` (the property setter): the other corner and the
options are unchanged; all derived attributes are computed accessors over
the current corners. -/
def Rectangle.set_left_corner (r : Rectangle) (p : Point) : Rectangle :=
  { r with left_corner := p }

/-- Setting `right_corner` (the property setter). -/
def Rectangle.set_right_corner (r : Rectangle) (p : Point) : Rectangle :=
  { r with right_corner := p }

/-- Modelled from the spec: `shift(dx, dy)` translates both corners by the
same delta. -/
def Rectangle.shift (r : Rectangle) (dx dy : ℚ) : Rectangle :=
  { r with
    left_corner := ⟨r.left_corner.x + dx, r.left_corner.y + dy⟩
    right_corner := ⟨r.right_corner.x + dx, r.right_corner.y + dy⟩ }

/-- Modelled from the spec: `scale(k)` multiplies both corners'
coordinates by k (scaling about the origin). -/
def Rectangle.scale (r : Rectangle) (k : ℚ) : Rectangle :=
  { r with
    left_corner := ⟨r.left_corner.x * k, r.left_corner.y * k⟩
    right_corner := ⟨r.right_corner.x * k, r.right_corner.y * k⟩ }

/-- Modelled from the spec: coordinate formatting in the rendered draw
command; an integral coordinate prints with no fractional part, as in the
tests. -/
def fmtCoord (q : ℚ) : String :=
  if q.den = 1 then toString q.num else toString q

def fmtPoint (p : Point) : String :=
  "(" ++ fmtCoord p.x ++ ", " ++ fmtCoord p.y ++ ")"

/-- Modelled from the spec: `Rectangle.code` renders
`\draw[options] (left.x, left.y) rectangle (right.x, right.y);` using the
raw corners in their original order, with the bracket omitted entirely
when the options string is empty. -/
def Rectangle.code (r : Rectangle) : String :=
  "\\draw" ++ brackets r.options ++ " " ++ fmtPoint r.left_corner
    ++ " rectangle " ++ fmtPoint r.right_corner ++ ";"

/-- C3: for every pair of corner points, in all four orderings of the
corner quadrant relationships, `width = |right.x - left.x|`,
`height = |right.y - left.y|`, and the center and the four compass points
equal the values computed from the normalized (min, max) of the x and y
coordinates; the swapped-corner variants have identical derived
geometry. -/
theorem rectangle_normalized_geometry (x1 y1 x2 y2 : ℚ) (opts : String) :
    (Rectangle.mk ⟨x1, y1⟩ ⟨x2, y2⟩ opts).width = |x2 - x1| ∧
    (Rectangle.mk ⟨x1, y1⟩ ⟨x2, y2⟩ opts).height = |y2 - y1| ∧
    (Rectangle.mk ⟨x1, y1⟩ ⟨x2, y2⟩ opts).center
      = ⟨(min x1 x2 + max x1 x2) / 2, (min y1 y2 + max y1 y2) / 2⟩ ∧
    (Rectangle.mk ⟨x1, y1⟩ ⟨x2, y2⟩ opts).north
      = ⟨(min x1 x2 + max x1 x2) / 2, max y1 y2⟩ ∧
    (Rectangle.mk ⟨x1, y1⟩ ⟨x2, y2⟩ opts).south
      = ⟨(min x1 x2 + max x1 x2) / 2, min y1 y2⟩ ∧
    (Rectangle.mk ⟨x1, y1⟩ ⟨x2, y2⟩ opts).east
      = ⟨max x1 x2, (min y1 y2 + max y1 y2) / 2⟩ ∧
    (Rectangle.mk ⟨x1, y1⟩ ⟨x2, y2⟩ opts).west
      = ⟨min x1 x2, (min y1 y2 + max y1 y2) / 2⟩ ∧
    (Rectangle.mk ⟨x2, y1⟩ ⟨x1, y2⟩ opts).width = |x1 - x2| ∧
    (Rectangle.mk ⟨x2, y1⟩ ⟨x1, y2⟩ opts).height = |y2 - y1| ∧
    (Rectangle.mk ⟨x2, y1⟩ ⟨x1, y2⟩ opts).center
      = (Rectangle.mk ⟨x1, y1⟩ ⟨x2, y2⟩ opts).center ∧
    (Rectangle.mk ⟨x2, y1⟩ ⟨x1, y2⟩ opts).north
      = (Rectangle.mk ⟨x1, y1⟩ ⟨x2, y2⟩ opts).north ∧
    (Rectangle.mk ⟨x2, y1⟩ ⟨x1, y2⟩ opts).south
      = (Rectangle.mk ⟨x1, y1⟩ ⟨x2, y2⟩ opts).south ∧
    (Rectangle.mk ⟨x2, y1⟩ ⟨x1, y2⟩ opts).east
      = (Rectangle.mk ⟨x1, y1⟩ ⟨x2, y2⟩ opts).east ∧
    (Rectangle.mk ⟨x2, y1⟩ ⟨x1, y2⟩ opts).west
      = (Rectangle.mk ⟨x1, y1⟩ ⟨x2, y2⟩ opts).west ∧
    (Rectangle.mk ⟨x1, y2⟩ ⟨x2, y1⟩ opts).width = |x2 - x1| ∧
    (Rectangle.mk ⟨x1, y2⟩ ⟨x2, y1⟩ opts).height = |y1 - y2| ∧
    (Rectangle.mk ⟨x1, y2⟩ ⟨x2, y1⟩ opts).center
      = (Rectangle.mk ⟨x1, y1⟩ ⟨x2, y2⟩ opts).center ∧
    (Rectangle.mk ⟨x1, y2⟩ ⟨x2, y1⟩ opts).north
      = (Rectangle.mk ⟨x1, y1⟩ ⟨x2, y2⟩ opts).north ∧
    (Rectangle.mk ⟨x1, y2⟩ ⟨x2, y1⟩ opts).south
      = (Rectangle.mk ⟨x1, y1⟩ ⟨x2, y2⟩ opts).south ∧
    (Rectangle.mk ⟨x1, y2⟩ ⟨x2, y1⟩ opts).east
      = (Rectangle.mk ⟨x1, y1⟩ ⟨x2, y2⟩ opts).east ∧
    (Rectangle.mk ⟨x1, y2⟩ ⟨x2, y1⟩ opts).west
      = (Rectangle.mk ⟨x1, y1⟩ ⟨x2, y2⟩ opts).west ∧
    (Rectangle.mk ⟨x2, y2⟩ ⟨x1, y1⟩ opts).width = |x1 - x2| ∧
    (Rectangle.mk ⟨x2, y2⟩ ⟨x1, y1⟩ opts).height = |y1 - y2| ∧
    (Rectangle.mk ⟨x2, y2⟩ ⟨x1, y1⟩ opts).center
      = (Rectangle.mk ⟨x1, y1⟩ ⟨x2, y2⟩ opts).center ∧
    (Rectangle.mk ⟨x2, y2⟩ ⟨x1, y1⟩ opts).north
      = (Rectangle.mk ⟨x1, y1⟩ ⟨x2, y2⟩ opts).north ∧
    (Rectangle.mk ⟨x2, y2⟩ ⟨x1, y1⟩ opts).south
      = (Rectangle.mk ⟨x1, y1⟩ ⟨x2, y2⟩ opts).south ∧
    (Rectangle.mk ⟨x2, y2⟩ ⟨x1, y1⟩ opts).east
      = (Rectangle.mk ⟨x1, y1⟩ ⟨x2, y2⟩ opts).east ∧
    (Rectangle.mk ⟨x2, y2⟩ ⟨x1, y1⟩ opts).west
      = (Rectangle.mk ⟨x1, y1⟩ ⟨x2, y2⟩ opts).west := by
  simp [Rectangle.width, Rectangle.height, Rectangle.center, Rectangle.north,
    Rectangle.south, Rectangle.east, Rectangle.west, Rectangle.minX,
    Rectangle.maxX, Rectangle.minY, Rectangle.maxY, Point.mk.injEq,
    min_comm, max_comm]

/-- C4: after assigning a new value to `left_corner` or to `right_corner`,
every derived property (height, width, center and the four compass points)
is computed from the new corner pair alone — the same values as those of a
rectangle freshly constructed from the new pair — with no stale value from
the previous corner; instantiated compatibly with the repository test
`test_left_corner_assignment`. -/
theorem rectangle_corner_assignment (r : Rectangle) (p : Point) :
    (r.set_left_corner p).width = |r.right_corner.x - p.x| ∧
    (r.set_left_corner p).height = |r.right_corner.y - p.y| ∧
    (r.set_left_corner p).center
      = (Rectangle.mk p r.right_corner r.options).center ∧
    (r.set_left_corner p).north
      = (Rectangle.mk p r.right_corner r.options).north ∧
    (r.set_left_corner p).south
      = (Rectangle.mk p r.right_corner r.options).south ∧
    (r.set_left_corner p).east
      = (Rectangle.mk p r.right_corner r.options).east ∧
    (r.set_left_corner p).west
      = (Rectangle.mk p r.right_corner r.options).west ∧
    (r.set_right_corner p).width = |p.x - r.left_corner.x| ∧
    (r.set_right_corner p).height = |p.y - r.left_corner.y| ∧
    (r.set_right_corner p).center
      = (Rectangle.mk r.left_corner p r.options).center ∧
    (r.set_right_corner p).north
      = (Rectangle.mk r.left_corner p r.options).north ∧
    (r.set_right_corner p).south
      = (Rectangle.mk r.left_corner p r.options).south ∧
    (r.set_right_corner p).east
      = (Rectangle.mk r.left_corner p r.options).east ∧
    (r.set_right_corner p).west
      = (Rectangle.mk r.left_corner p r.options).west ∧
    ((Rectangle.mk ⟨2, 2⟩ ⟨3, 4⟩ "Blue").set_left_corner ⟨0, 0⟩).height = 4 ∧
    ((Rectangle.mk ⟨2, 2⟩ ⟨3, 4⟩ "Blue").set_left_corner ⟨0, 0⟩).width = 3 ∧
    ((Rectangle.mk ⟨2, 2⟩ ⟨3, 4⟩ "Blue").set_left_corner ⟨0, 0⟩).code
      = "\\draw[Blue] (0, 0) rectangle (3, 4);" ∧
    ((Rectangle.mk ⟨2, 2⟩ ⟨3, 4⟩ "Blue").set_right_corner ⟨4, 4⟩).height = 2 ∧
    ((Rectangle.mk ⟨2, 2⟩ ⟨3, 4⟩ "Blue").set_right_corner ⟨4, 4⟩).width = 2 ∧
    ((Rectangle.mk ⟨2, 2⟩ ⟨3, 4⟩ "Blue").set_right_corner ⟨4, 4⟩).code
      = "\\draw[Blue] (2, 2) rectangle (4, 4);" := by
  refine ⟨rfl, rfl, rfl, rfl, rfl, rfl, rfl, rfl, rfl, rfl, rfl, rfl, rfl,
    rfl, ?_, ?_, ?_, ?_, ?_, ?_⟩
  · show |(4 : ℚ) - 0| = 4
    norm_num
  · show |(3 : ℚ) - 0| = 3
    norm_num
  · rfl
  · show |(4 : ℚ) - 2| = 2
    norm_num
  · show |(4 : ℚ) - 2| = 2
    norm_num
  · rfl

/-- C7: `Rectangle((2,2),(3,4), options="Blue")` yields width 1, height 2,
center (2.5, 3.0), north (2.5, 4), south (2.5, 2), east (3, 3),
west (2, 3), and renders exactly `\draw[Blue] (2, 2) rectangle (3, 4);`. -/
theorem rectangle_constructor_example :
    (Rectangle.mk ⟨2, 2⟩ ⟨3, 4⟩ "Blue").width = 1 ∧
    (Rectangle.mk ⟨2, 2⟩ ⟨3, 4⟩ "Blue").height = 2 ∧
    (Rectangle.mk ⟨2, 2⟩ ⟨3, 4⟩ "Blue").center = ⟨5 / 2, 3⟩ ∧
    (Rectangle.mk ⟨2, 2⟩ ⟨3, 4⟩ "Blue").north = ⟨5 / 2, 4⟩ ∧
    (Rectangle.mk ⟨2, 2⟩ ⟨3, 4⟩ "Blue").south = ⟨5 / 2, 2⟩ ∧
    (Rectangle.mk ⟨2, 2⟩ ⟨3, 4⟩ "Blue").east = ⟨3, 3⟩ ∧
    (Rectangle.mk ⟨2, 2⟩ ⟨3, 4⟩ "Blue").west = ⟨2, 3⟩ ∧
    (Rectangle.mk ⟨2, 2⟩ ⟨3, 4⟩ "Blue").code
      = "\\draw[Blue] (2, 2) rectangle (3, 4);" := by
  refine ⟨?_, ?_, ?_, ?_, ?_, ?_, ?_, rfl⟩ <;>
    simp [Rectangle.width, Rectangle.height, Rectangle.center,
      Rectangle.north, Rectangle.south, Rectangle.east, Rectangle.west,
      Rectangle.minX, Rectangle.maxX, Rectangle.minY, Rectangle.maxY,
      Point.mk.injEq] <;> norm_num

/-- C8: `scale(k)` multiplies both corners' coordinates by k, after which
width and height equal their previous values multiplied by `|k|`; in
particular `scale(2)` on `Rectangle((2,2),(3,4))` makes the corners
(4,4) and (6,8). -/
theorem rectangle_scale_spec (r : Rectangle) (k : ℚ) :
    (r.scale k).left_corner = ⟨r.left_corner.x * k, r.left_corner.y * k⟩ ∧
    (r.scale k).right_corner = ⟨r.right_corner.x * k, r.right_corner.y * k⟩ ∧
    (r.scale k).width = |k| * r.width ∧
    (r.scale k).height = |k| * r.height ∧
    ((Rectangle.mk ⟨2, 2⟩ ⟨3, 4⟩ "Blue").scale 2).left_corner = ⟨4, 4⟩ ∧
    ((Rectangle.mk ⟨2, 2⟩ ⟨3, 4⟩ "Blue").scale 2).right_corner = ⟨6, 8⟩ := by
  refine ⟨rfl, rfl, ?_, ?_, ?_, ?_⟩
  · show |r.right_corner.x * k - r.left_corner.x * k| = |k| * r.width
    rw [← sub_mul, abs_mul, Rectangle.width, mul_comm]
  · show |r.right_corner.y * k - r.left_corner.y * k| = |k| * r.height
    rw [← sub_mul, abs_mul, Rectangle.height, mul_comm]
  · show Point.mk ((2 : ℚ) * 2) ((2 : ℚ) * 2) = ⟨4, 4⟩
    norm_num
  · show Point.mk ((3 : ℚ) * 2) ((4 : ℚ) * 2) = ⟨6, 8⟩
    norm_num

/-- C9: `shift(dx, dy)` translates both corners by exactly (dx, dy) and
leaves width and height unchanged. -/
theorem rectangle_shift_spec (r : Rectangle) (dx dy : ℚ) :
    (r.shift dx dy).left_corner
      = ⟨r.left_corner.x + dx, r.left_corner.y + dy⟩ ∧
    (r.shift dx dy).right_corner
      = ⟨r.right_corner.x + dx, r.right_corner.y + dy⟩ ∧
    (r.shift dx dy).width = r.width ∧
    (r.shift dx dy).height = r.height := by
  refine ⟨rfl, rfl, ?_, ?_⟩
  · show |r.right_corner.x + dx - (r.left_corner.x + dx)| = r.width
    rw [add_sub_add_right_eq_sub, Rectangle.width]
  · show |r.right_corner.y + dy - (r.left_corner.y + dy)| = r.height
    rw [add_sub_add_right_eq_sub, Rectangle.height]

end TikzPy
